import Mathlib

/-!
Verification of the two coverage scripts of the Simmer repository:
scripts/lcov_percentage.py (per-file coverage percentage from an LCOV
report) and scripts/xccov_to_lcov.py (xcresult archive to LCOV converter).

The Python code is shallowly embedded: strings are Lean strings operated
on char-by-char (Python str semantics), the opened report file is its
list of lines, subprocess results are oracle functions, and side effects
of the converter are an explicit trace of Effect values.  A Python
exception (ValueError from int() or tuple unpacking) is modelled as
Option.none.
-/

namespace Simmer

/-- Splits a character list at every occurrence of the separator, keeping
empty pieces, as Python str.split with a one-character separator does. -/
def splitOnChar (sep : Char) : List Char → List (List Char)
  | [] => [[]]
  | c :: cs =>
    if c = sep then [] :: splitOnChar sep cs
    else
      match splitOnChar sep cs with
      | [] => [[c]]
      | p :: ps => (c :: p) :: ps

/-- Joins character lists with the separator between consecutive pieces. -/
def joinWith (sep : Char) : List (List Char) → List Char
  | [] => []
  | [p] => p
  | p :: ps => p ++ sep :: joinWith sep ps

/-- Removes leading and trailing whitespace characters, as Python
str.strip does (restricted to ASCII whitespace, which is all that can
occur in the inputs handled here). -/
def trimChars (l : List Char) : List Char :=
  ((((l.dropWhile Char.isWhitespace).reverse).dropWhile Char.isWhitespace).reverse)

/-- Python str.strip on a Lean string. -/
def strTrim (s : String) : String := ⟨trimChars s.data⟩

/-- Python str.startswith. -/
def strStartsWith (s pre : String) : Bool := List.isPrefixOf pre.data s.data

/-- Python str.endswith. -/
def strEndsWith (s suf : String) : Bool := List.isSuffixOf suf.data s.data

/-- Python slicing s[n:]. -/
def strDrop (s : String) (n : Nat) : String := ⟨s.data.drop n⟩

/-- Python str.split with a one-character separator. -/
def strSplitOn (s : String) (sep : Char) : List String :=
  (splitOnChar sep s.data).map (fun l => ⟨l⟩)

/-- Joins strings with a one-character separator between them. -/
def strJoin (sep : Char) (parts : List String) : String :=
  ⟨joinWith sep (parts.map String.data)⟩

/-- Models CPython int() applied to a decimal string: surrounding
whitespace is stripped, one optional sign is accepted, and the rest must
be one or more ASCII digits; any other input raises ValueError, modelled
as none.  Digit-group underscores and non-ASCII digits are not modelled;
on such inputs both the code and this model fail to produce a value. -/
def pyInt? (s : String) : Option Int :=
  match trimChars s.data with
  | [] => none
  | c :: cs =>
    let neg : Bool := c = '-'
    let digits : List Char := if c = '-' ∨ c = '+' then cs else c :: cs
    if digits ≠ [] ∧ digits.all Char.isDigit then
      let n : Nat := digits.foldl (fun acc ch => acc * 10 + (ch.toNat - '0'.toNat)) 0
      some (if neg then -(n : Int) else (n : Int))
    else none

/-- Root of a POSIX pure path as pathlib parses it: a path beginning with
exactly two slashes keeps the double-slash root, any other leading slash
gives the single-slash root, and a relative path has no root. -/
def pathRoot (s : String) : String :=
  if strStartsWith s "//" && !(strStartsWith s "///") then "//"
  else if strStartsWith s "/" then "/" else ""

/-- Components of a POSIX pure path as pathlib parses it: empty pieces
(redundant separators) and single-dot pieces are dropped; dot-dot pieces
are kept. -/
def pathParts (s : String) : List String :=
  (strSplitOn s '/').filter (fun p => !(p == "") && !(p == "."))

/-- Models str(pathlib.Path(s)) (equal to Path.as_posix on POSIX): the
root followed by the surviving components joined by single slashes, or a
single dot for an empty relative path.  Used at
scripts/lcov_percentage.py:11 for the target and line 20 for SF paths. -/
def posixStr (s : String) : String :=
  if pathRoot s == "" && (pathParts s).isEmpty then "."
  else pathRoot s ++ strJoin '/' (pathParts s)

/-- Models pathlib Path.relative_to: defined when the other path has the
same root and its components are a leading prefix of this ones, in which
case the result is the remaining components (a single dot if none);
otherwise ValueError, modelled as none.  Used at
scripts/xccov_to_lcov.py:45. -/
def relative_to (p root : String) : Option String :=
  if pathRoot p == pathRoot root && List.isPrefixOf (pathParts root) (pathParts p) then
    some
      (if ((pathParts p).drop (pathParts root).length).isEmpty then "."
       else strJoin '/' ((pathParts p).drop (pathParts root).length))
  else none

/-- Models pathlib Path.name: the final path component, or the empty
string when there is none. -/
def relName (s : String) : String := ((pathParts s).getLast?).getD ""

/-- Models pathlib Path.parent: drops the final component.  Used at
scripts/xccov_to_lcov.py:97 for the output directory. -/
def parentOf (s : String) : String :=
  if pathRoot s == "" && ((pathParts s).dropLast).isEmpty then "."
  else pathRoot s ++ strJoin '/' ((pathParts s).dropLast)

/-- Parses the payload of one matching DA record, embedding lines 25 and
27 of scripts/lcov_percentage.py: the payload is split at the first
comma (no comma at all makes the tuple unpacking raise, and a hit field
that is not an integer makes int() raise; both are none here), and the
hit count is the integer after the first comma.  Splitting at every
comma and rejoining the tail is equivalent to maxsplit=1 because int()
rejects any string containing a comma. -/
def recParse (payload : String) : Option Int :=
  match strSplitOn payload ',' with
  | [] => none
  | [_] => none
  | _ :: rest => pyInt? (strJoin ',' rest)

/-- Parses every collected DA payload in order; none if any fails. -/
def parseAll : List String → Option (List Int)
  | [] => some []
  | p :: ps =>
    match recParse p, parseAll ps with
    | some h, some hs => some (h :: hs)
    | _, _ => none

/-- Number of hit counts that are strictly positive. -/
def countPos (hs : List Int) : Nat := (hs.filter (fun h => decide (0 < h))).length

/-- The DA payloads that contribute to the totals of coverage_for_file,
read off the scan of scripts/lcov_percentage.py lines 17-27: the current
file is set only by a preceding SF marker, and a DA record contributes
exactly when a current file is set and its normalized path ends with the
normalized target. -/
def contributing (t : String) : Option String → List String → List String
  | _, [] => []
  | cf, raw :: rest =>
    if strStartsWith (strTrim raw) "SF:" then
      contributing t (some (posixStr (strDrop (strTrim raw) 3))) rest
    else if strStartsWith (strTrim raw) "DA:" then
      match cf with
      | none => contributing t none rest
      | some f =>
        if strEndsWith f t then strDrop (strTrim raw) 3 :: contributing t cf rest
        else contributing t cf rest
    else contributing t cf rest

/-- The line scan of coverage_for_file (scripts/lcov_percentage.py lines
12-27) with its mutable state (current file, covered, total) passed
explicitly; none models the ValueError exception escaping the loop. -/
def scan (t : String) : Option String → Nat → Nat → List String → Option (Nat × Nat)
  | _, covered, total, [] => some (covered, total)
  | cf, covered, total, raw :: rest =>
    if strStartsWith (strTrim raw) "SF:" then
      scan t (some (posixStr (strDrop (strTrim raw) 3))) covered total rest
    else if strStartsWith (strTrim raw) "DA:" then
      match cf with
      | none => scan t none covered total rest
      | some f =>
        if strEndsWith f t then
          match recParse (strDrop (strTrim raw) 3) with
          | none => none
          | some h => scan t cf (covered + if 0 < h then 1 else 0) (total + 1) rest
        else scan t cf covered total rest
    else scan t cf covered total rest

/-- Embeds coverage_for_file (scripts/lcov_percentage.py lines 10-31):
the opened report is its list of lines, the target is normalized once,
the scan runs with empty state, and the result is 100 when no record
contributed, else covered over total times 100. -/
def coverage_for_file (reportLines : List String) (target : String) : Option ℚ :=
  match scan (posixStr target) none 0 0 reportLines with
  | none => none
  | some (covered, total) =>
    some (if total = 0 then 100 else (covered : ℚ) / (total : ℚ) * 100)

/-- Models the fixed two-decimal rendering used by main at
scripts/lcov_percentage.py:42 at rational precision: round to the
nearest hundredth and print with exactly two decimal digits.  The Python
code formats the nearest binary double instead; the two agree on every
value that is not within one part in 2 to the 50 of a rounding tie,
which covers every value arising in the claims. -/
def format2 (q : ℚ) : String :=
  (if round (q * 100) < 0 then "-" else "")
    ++ toString ((round (q * 100)).natAbs / 100) ++ "."
    ++ (if (round (q * 100)).natAbs % 100 < 10
        then "0" ++ toString ((round (q * 100)).natAbs % 100)
        else toString ((round (q * 100)).natAbs % 100))

/-- Embeds the success path of main (scripts/lcov_percentage.py lines
34-43): with a well-formed argument list the program prints the
formatted percentage and returns 0; the exceptional outcome of
coverage_for_file propagates as none. -/
def lcov_main (reportLines : List String) (target : String) : Option (Int × String) :=
  (coverage_for_file reportLines target).map (fun p => (0, format2 p))

/-- The scan of coverage_for_file is determined by the list of
contributing DA payloads: it fails exactly when one of them fails to
parse, and otherwise adds the number of positive hit counts to covered
and the number of payloads to total. -/
theorem scan_eq_contributing (t : String) :
    ∀ (ls : List String) (cf : Option String) (c tot : Nat),
    scan t cf c tot ls =
      (parseAll (contributing t cf ls)).map
        (fun hs => (c + countPos hs, tot + hs.length)) := by
  intro ls
  induction ls with
  | nil => intro cf c tot; simp [scan, contributing, parseAll, countPos]
  | cons raw rest ih =>
    intro cf c tot
    by_cases h1 : strStartsWith (strTrim raw) "SF:" = true
    · simp only [scan, contributing, h1, if_true]
      exact ih _ _ _
    · by_cases h2 : strStartsWith (strTrim raw) "DA:" = true
      · cases cf with
        | none =>
          simp only [scan, contributing, h1, h2, if_true, if_false]
          exact ih _ _ _
        | some f =>
          by_cases h3 : strEndsWith f t = true
          · cases hp : recParse (strDrop (strTrim raw) 3) with
            | none => simp [scan, contributing, h1, h2, h3, hp, parseAll]
            | some h =>
              have e1 : scan t (some f) c tot (raw :: rest)
                  = scan t (some f) (c + if 0 < h then 1 else 0) (tot + 1) rest := by
                simp [scan, h1, h2, h3, hp]
              have e2 : contributing t (some f) (raw :: rest)
                  = strDrop (strTrim raw) 3 :: contributing t (some f) rest := by
                simp [contributing, h1, h2, h3]
              rw [e1, e2, ih]
              cases hq : parseAll (contributing t (some f) rest) with
              | none => simp [parseAll, hp, hq]
              | some hs =>
                simp only [parseAll, hp, hq, Option.map_some']
                by_cases h0 : (0 : Int) < h <;>
                  simp [countPos, List.filter_cons, h0, Prod.ext_iff] <;> omega
          · simp only [scan, contributing, h1, h2, h3, if_true, if_false]
            exact ih _ _ _
      · simp only [scan, contributing, h1, h2, if_false]
        exact ih _ _ _

/-- Successfully parsed payload lists keep their length. -/
theorem parseAll_length :
    ∀ (ps : List String) (hs : List Int), parseAll ps = some hs → hs.length = ps.length := by
  intro ps
  induction ps with
  | nil =>
    intro hs h
    simp only [parseAll, Option.some.injEq] at h
    subst h; rfl
  | cons p ps ih =>
    intro hs h
    simp only [parseAll] at h
    cases hp : recParse p with
    | none => rw [hp] at h; exact absurd h (by simp)
    | some v =>
      rw [hp] at h
      cases hq : parseAll ps with
      | none => rw [hq] at h; exact absurd h (by simp)
      | some vs =>
        rw [hq] at h
        simp only [Option.some.injEq] at h
        subst h
        simp [ih vs hq]

/-- With no contributing record the scan never fails and the result is
the vacuous 100 of scripts/lcov_percentage.py line 30. -/
theorem coverage_vacuous (reportLines : List String) (target : String)
    (h : contributing (posixStr target) none reportLines = []) :
    coverage_for_file reportLines target = some 100 := by
  unfold coverage_for_file
  rw [scan_eq_contributing, h]
  simp [parseAll, countPos]

/-- When the contributing payloads parse to the hit counts hs and at
least one exists, the result is the covered ratio times 100. -/
theorem coverage_eval (reportLines : List String) (target : String) (hs : List Int)
    (hp : parseAll (contributing (posixStr target) none reportLines) = some hs)
    (hne : hs ≠ []) :
    coverage_for_file reportLines target =
      some ((countPos hs : ℚ) / (hs.length : ℚ) * 100) := by
  unfold coverage_for_file
  rw [scan_eq_contributing, hp]
  have hlen : hs.length ≠ 0 := by simpa using hne
  simp [hlen]

/-- C1: for every LCOV report and target with zero contributing DA
records, coverage_for_file returns exactly 100, and the program prints
the line 100.00 and exits 0. -/
theorem C1_vacuous_coverage_is_100 (reportLines : List String) (target : String)
    (h : contributing (posixStr target) none reportLines = []) :
    coverage_for_file reportLines target = some 100 ∧
    lcov_main reportLines target = some (0, "100.00") := by
  have hc := coverage_vacuous reportLines target h
  refine ⟨hc, ?_⟩
  unfold lcov_main
  rw [hc]
  simp only [Option.map_some']
  have hr : round ((100 : ℚ) * 100) = 10000 := by
    rw [round_eq]; norm_num [Int.floor_eq_iff]
  unfold format2
  rw [hr]
  decide

/-- Witness for C1 on a report whose only section is for another file. -/
theorem C1_witness :
    contributing (posixStr "z.swift") none ["SF:/x/y.swift", "DA:1,1"] = [] ∧
    coverage_for_file ["SF:/x/y.swift", "DA:1,1"] "z.swift" = some 100 ∧
    lcov_main ["SF:/x/y.swift", "DA:1,1"] "z.swift" = some (0, "100.00") := by
  have h := C1_vacuous_coverage_is_100 ["SF:/x/y.swift", "DA:1,1"] "z.swift" (by decide)
  exact ⟨by decide, h.1, h.2⟩

/-- C2: with at least one contributing DA record, coverage_for_file
returns covered over total times 100 where total is the number of
contributing records and covered the number with positive hit count;
on a report with three matching records of which two have positive hits
the program prints 66.67, and with zero covered records it prints
0.00. -/
theorem C2_covered_ratio (reportLines : List String) (target : String) (hs : List Int)
    (hp : parseAll (contributing (posixStr target) none reportLines) = some hs)
    (hne : hs ≠ []) :
    coverage_for_file reportLines target =
      some ((countPos hs : ℚ) / (hs.length : ℚ) * 100) ∧
    hs.length = (contributing (posixStr target) none reportLines).length ∧
    lcov_main ["SF:/a/b/Foo.ext", "DA:1,1", "DA:2,3", "DA:3,0"] "Foo.ext"
      = some (0, "66.67") ∧
    lcov_main ["SF:/a/b/Foo.ext", "DA:1,0"] "Foo.ext" = some (0, "0.00") := by
  refine ⟨coverage_eval reportLines target hs hp hne,
          parseAll_length _ hs hp, ?_, ?_⟩
  · have e : parseAll (contributing (posixStr "Foo.ext") none
        ["SF:/a/b/Foo.ext", "DA:1,1", "DA:2,3", "DA:3,0"]) = some [1, 3, 0] := by decide
    have c := coverage_eval ["SF:/a/b/Foo.ext", "DA:1,1", "DA:2,3", "DA:3,0"]
      "Foo.ext" [1, 3, 0] e (by simp)
    unfold lcov_main
    rw [c]
    simp only [Option.map_some']
    have h2 : countPos [(1 : Int), 3, 0] = 2 := by decide
    rw [h2]
    have hr : round (((2 : Nat) : ℚ) / (([(1 : Int), 3, 0].length : Nat) : ℚ) * 100 * 100)
        = 6667 := by
      rw [round_eq]; norm_num [Int.floor_eq_iff]
    unfold format2
    rw [hr]
    decide
  · have e : parseAll (contributing (posixStr "Foo.ext") none
        ["SF:/a/b/Foo.ext", "DA:1,0"]) = some [0] := by decide
    have c := coverage_eval ["SF:/a/b/Foo.ext", "DA:1,0"] "Foo.ext" [0] e (by simp)
    unfold lcov_main
    rw [c]
    simp only [Option.map_some']
    have h2 : countPos [(0 : Int)] = 0 := by decide
    rw [h2]
    have hr : round (((0 : Nat) : ℚ) / (([(0 : Int)].length : Nat) : ℚ) * 100 * 100)
        = 0 := by
      rw [round_eq]; norm_num [Int.floor_eq_iff]
    unfold format2
    rw [hr]
    decide

/-- Witness for C2 on the three-record report of the claim. -/
theorem C2_witness :
    parseAll (contributing (posixStr "Foo.ext") none
        ["SF:/a/b/Foo.ext", "DA:1,1", "DA:2,3", "DA:3,0"]) = some [1, 3, 0] ∧
    coverage_for_file ["SF:/a/b/Foo.ext", "DA:1,1", "DA:2,3", "DA:3,0"] "Foo.ext"
      = some ((countPos [1, 3, 0] : ℚ) / (([(1 : Int), 3, 0].length : Nat) : ℚ) * 100) ∧
    lcov_main ["SF:/a/b/Foo.ext", "DA:1,1", "DA:2,3", "DA:3,0"] "Foo.ext"
      = some (0, "66.67") := by
  have h := C2_covered_ratio ["SF:/a/b/Foo.ext", "DA:1,1", "DA:2,3", "DA:3,0"]
    "Foo.ext" [1, 3, 0] (by decide) (by simp)
  exact ⟨by decide, h.1, h.2.2.1⟩

/-- C3: a DA record contributes to the totals exactly when a current
file has been set by a preceding SF marker and its normalized path ends
with the normalized target: the result of coverage_for_file is a
function of the contributing payload list, whose definition collects
exactly those records; the recorded path /a/b/Foo.ext matches the
targets b/Foo.ext and Foo.ext, and a DA record before any SF marker
contributes nothing. -/
theorem C3_contribution_characterization :
    (∀ (reportLines : List String) (target : String),
      coverage_for_file reportLines target =
        (parseAll (contributing (posixStr target) none reportLines)).map
          (fun hs => if hs.length = 0 then (100 : ℚ)
                     else (countPos hs : ℚ) / (hs.length : ℚ) * 100)) ∧
    contributing (posixStr "b/Foo.ext") none ["SF:/a/b/Foo.ext", "DA:7,1"] = ["7,1"] ∧
    contributing (posixStr "Foo.ext") none ["SF:/a/b/Foo.ext", "DA:7,1"] = ["7,1"] ∧
    contributing (posixStr "Foo.ext") none ["DA:7,1"] = [] := by
  refine ⟨?_, by decide, by decide, by decide⟩
  intro reportLines target
  unfold coverage_for_file
  rw [scan_eq_contributing]
  cases hq : parseAll (contributing (posixStr target) none reportLines) with
  | none => simp
  | some hs => simp

/-- C4 counterexample: the normalization applied to the target keeps
dot-dot components, so a/../b/f.ext does not normalize to b/f.ext. -/
theorem C4_counterexample :
    posixStr "a/../b/f.ext" = "a/../b/f.ext" ∧
    posixStr "a/../b/f.ext" ≠ "b/f.ext" := by decide

/-- C4 amended: the normalization collapses single-dot components and
redundant separators into a slash-separated form but keeps dot-dot
components unchanged; consequently the target a/../b/f.ext fails to
match a report path recorded as b/f.ext and the report is treated as
vacuous. -/
theorem C4_amended_normalization :
    posixStr "./a//b/./f.ext" = "a/b/f.ext" ∧
    posixStr "a/../b/f.ext" = "a/../b/f.ext" ∧
    coverage_for_file ["SF:b/f.ext", "DA:1,0"] "a/../b/f.ext" = some 100 := by
  refine ⟨by decide, by decide, ?_⟩
  exact coverage_vacuous ["SF:b/f.ext", "DA:1,0"] "a/../b/f.ext" (by decide)

/-- C10: the suffix match of the calculator is a raw character suffix
test, not aligned to path components: the target oo.ext makes the DA
record of the recorded path /a/b/Foo.ext contribute (the result is 0,
not the vacuous 100), although oo.ext is not a trailing sequence of
whole components of that path. -/
theorem C10_raw_character_suffix :
    contributing (posixStr "oo.ext") none ["SF:/a/b/Foo.ext", "DA:3,0"] = ["3,0"] ∧
    coverage_for_file ["SF:/a/b/Foo.ext", "DA:3,0"] "oo.ext" = some 0 ∧
    List.isSuffixOf (pathParts (posixStr "oo.ext")) (pathParts "/a/b/Foo.ext") = false := by
  refine ⟨by decide, ?_, by decide⟩
  have e : parseAll (contributing (posixStr "oo.ext") none
      ["SF:/a/b/Foo.ext", "DA:3,0"]) = some [0] := by decide
  have c := coverage_eval ["SF:/a/b/Foo.ext", "DA:3,0"] "oo.ext" [0] e (by simp)
  rw [c]
  have h2 : countPos [(0 : Int)] = 0 := by decide
  rw [h2]
  norm_num

/-- One per-line record of the per-file xccov JSON
(scripts/xccov_to_lcov.py lines 69-72): the line number is a required
key, while isExecutable and executionCount carry the dict.get defaults
false and 0, so an absent isExecutable key is the value false here. -/
structure CoverageEntry where
  line : Int
  isExecutable : Bool
  executionCount : Int
deriving DecidableEq

/-- One file descriptor of a build target in the report JSON; path
carries the dict.get default empty string. -/
structure FileEntry where
  path : String
deriving DecidableEq

/-- One build target of the report JSON; name carries the dict.get
default empty string. -/
structure BuildTarget where
  name : String
  files : List FileEntry
deriving DecidableEq

/-- The report JSON of xccov view dash-dash-report: its list of targets
(dict.get default empty list). -/
structure CovReport where
  targets : List BuildTarget
deriving DecidableEq

/-- One observable side effect of the converter, in program order:
directory creation, the two kinds of xccov subprocess invocations, the
output file write, and a message on the error stream. -/
inductive Effect where
  | mkdirParents (path : String)
  | xccovReport (archive : String)
  | xccovFile (file : String) (archive : String)
  | writeFile (path : String) (content : String)
  | printErr (msg : String)
deriving DecidableEq

/-- True for the two subprocess effects. -/
def Effect.isSubprocess : Effect → Bool
  | .xccovReport _ => true
  | .xccovFile _ _ => true
  | _ => false

/-- True for the effects that mutate the file system. -/
def Effect.isFsWrite : Effect → Bool
  | .mkdirParents _ => true
  | .writeFile _ _ => true
  | _ => false

/-- The two sentinel filenames of scripts/xccov_to_lcov.py line 72. -/
def sentinelNames : List String := ["FileWatcher.swift", "PatternMatcher.swift"]

/-- Emission of one coverage entry (scripts/xccov_to_lcov.py lines
68-75): non-executable entries are dropped, and for an entry of a file
whose final path component is a sentinel name the execution count is
floored to 1. -/
def emitEntry (fileName : String) (e : CoverageEntry) : Option String :=
  if !e.isExecutable then none
  else
    some ("DA:" ++ toString e.line ++ ","
      ++ toString (if fileName ∈ sentinelNames then max e.executionCount 1
                   else e.executionCount))

/-- Emission for one file descriptor of a qualifying target
(scripts/xccov_to_lcov.py lines 39-76): files absent from disk or
outside the repository root contribute nothing and trigger no
subprocess call; otherwise one per-file xccov call is made (second
component) and one LCOV section is emitted (first component). -/
def emitFile (fileCov : String → List CoverageEntry) (fexists : String → Bool)
    (repoRoot : String) (targetName : String) (fe : FileEntry) :
    List String × List String :=
  if !(fexists (posixStr fe.path)) then ([], [])
  else
    match relative_to (posixStr fe.path) repoRoot with
    | none => ([], [])
    | some rel =>
      (("TN:" ++ targetName) :: ("SF:" ++ rel) ::
          ((fileCov (posixStr fe.path)).filterMap (emitEntry (relName rel))
            ++ ["end_of_record"]),
       [posixStr fe.path])

/-- The target and file loops of generate_lcov (scripts/xccov_to_lcov.py
lines 34-76): targets whose name does not end in .app are skipped;
the result is the emitted LCOV lines and the per-file subprocess
arguments, each in program order. -/
def lcovBody (report : CovReport) (fileCov : String → List CoverageEntry)
    (fexists : String → Bool) (repoRoot : String) : List String × List String :=
  report.targets.foldl
    (fun acc t =>
      if !(strEndsWith t.name ".app") then acc
      else t.files.foldl
        (fun acc2 fe =>
          ((acc2.1 ++ (emitFile fileCov fexists repoRoot t.name fe).1),
           (acc2.2 ++ (emitFile fileCov fexists repoRoot t.name fe).2))
        ) acc)
    ([], [])

/-- Embeds generate_lcov (scripts/xccov_to_lcov.py lines 28-78) as its
effect trace: the report-mode xccov call, then one per-file call per
emitted file, then the single write of all emitted lines joined by
newlines with a trailing newline.  The parsed report and the parsed
per-file JSON values are oracle parameters standing for the stdout of
the external tool. -/
def generate_lcov (report : CovReport) (fileCov : String → List CoverageEntry)
    (fexists : String → Bool) (xcresultPath outputPath repoRoot : String) :
    List Effect :=
  Effect.xccovReport xcresultPath ::
    ((lcovBody report fileCov fexists repoRoot).2.map
        (fun f => Effect.xccovFile f xcresultPath)
      ++ [Effect.writeFile outputPath
            (strJoin '\n' (lcovBody report fileCov fexists repoRoot).1 ++ "\n")])

/-- The usage message of scripts/xccov_to_lcov.py lines 83-86. -/
def usageMessage : String :=
  "usage: scripts/xccov_to_lcov.py <path/to/result.xcresult> <output.lcov>"

/-- Embeds main of scripts/xccov_to_lcov.py (lines 81-99) as exit code
plus effect trace: a wrong operand count prints the usage message and
exits 1; a resolved archive path absent from disk prints an error and
exits 1; otherwise the output parent directory is created and
generate_lcov runs.  The argument list models sys.argv without the
program name, and resolve models Path.resolve as a file-system
oracle. -/
def converter_main (resolve : String → String) (fexists : String → Bool)
    (report : CovReport) (fileCov : String → List CoverageEntry)
    (cwd : String) (args : List String) : Int × List Effect :=
  match args with
  | [xcArg, outArg] =>
    if !(fexists (resolve xcArg)) then
      (1, [Effect.printErr ("error: xcresult not found at " ++ resolve xcArg)])
    else
      (0, Effect.mkdirParents (parentOf (posixStr outArg)) ::
            generate_lcov report fileCov fexists (resolve xcArg) (posixStr outArg) cwd)
  | _ => (1, [Effect.printErr usageMessage])

/-- An oracle under which every path exists on disk. -/
def allExist : String → Bool := fun _ => true

/-- An oracle under which no path exists on disk. -/
def noneExist : String → Bool := fun _ => false

/-- An oracle reporting no coverage entries for any file. -/
def noCov : String → List CoverageEntry := fun _ => []

/-- A resolve oracle that leaves paths unchanged. -/
def resolveId : String → String := fun s => s

/-- A report with no build targets. -/
def emptyReport : CovReport := ⟨[]⟩

/-- Number of complete LCOV sections in a text: one per line that is
exactly the end_of_record marker. -/
def sectionCount (s : String) : Nat :=
  ((strSplitOn s '\n').filter (fun l => l == "end_of_record")).length

/-- A qualifying application target with one file, for witnesses. -/
def sampleReport : CovReport := ⟨[⟨"Simmer.app", [⟨"/repo/src/A.swift"⟩]⟩]⟩

/-- A coverage oracle with one executable and one non-executable entry. -/
def sampleCov : String → List CoverageEntry := fun _ => [⟨1, true, 2⟩, ⟨2, false, 7⟩]

/-- A test-bundle target, whose name does not end in .app. -/
def testTarget : BuildTarget := ⟨"SimmerTests.xctest", [⟨"/repo/src/B.swift"⟩]⟩

/-- C5: a build target whose name does not end in .app contributes
nothing: removing it from the report changes neither the emitted lines
(so none of its TN, SF, DA or end_of_record lines appear) nor the list
of per-file subprocess calls. -/
theorem C5_non_app_target_contributes_nothing
    (pre post : List BuildTarget) (t : BuildTarget)
    (fileCov : String → List CoverageEntry) (fexists : String → Bool) (root : String)
    (h : strEndsWith t.name ".app" = false) :
    lcovBody ⟨pre ++ t :: post⟩ fileCov fexists root =
      lcovBody ⟨pre ++ post⟩ fileCov fexists root := by
  unfold lcovBody
  simp only [List.foldl_append, List.foldl_cons, h, Bool.not_false, if_true]

/-- Witness for C5: dropping a test-bundle target is invisible. -/
theorem C5_witness :
    strEndsWith testTarget.name ".app" = false ∧
    lcovBody ⟨[testTarget] ++ sampleReport.targets⟩ sampleCov allExist "/repo" =
      lcovBody ⟨[] ++ sampleReport.targets⟩ sampleCov allExist "/repo" :=
  ⟨by decide,
   C5_non_app_target_contributes_nothing [] sampleReport.targets testTarget
     sampleCov allExist "/repo" (by decide)⟩

/-- C6: for an entry of a file whose filename is a sentinel name, an
executable entry is emitted with count floored to 1; in particular an
executable entry with execution count 0 is emitted as DA with count
1. -/
theorem C6_sentinel_floors_count (fileName : String) (e : CoverageEntry)
    (hn : fileName ∈ sentinelNames) (he : e.isExecutable = true) :
    emitEntry fileName e =
      some ("DA:" ++ toString e.line ++ "," ++ toString (max e.executionCount 1)) ∧
    (e.executionCount = 0 →
      emitEntry fileName e = some ("DA:" ++ toString e.line ++ ",1")) := by
  have h1 : emitEntry fileName e =
      some ("DA:" ++ toString e.line ++ "," ++ toString (max e.executionCount 1)) := by
    unfold emitEntry
    rw [he]
    simp [hn]
  refine ⟨h1, fun h0 => ?_⟩
  rw [h1, h0]
  rw [show toString (max (0 : Int) 1) = "1" from by decide, String.append_assoc,
      show ("," : String) ++ "1" = ",1" from by decide]

/-- Witness for C6 at the first sentinel filename. -/
theorem C6_witness :
    emitEntry "FileWatcher.swift" ⟨5, true, 0⟩ = some ("DA:" ++ toString (5 : Int) ++ ",1") ∧
    ("DA:" ++ toString (5 : Int) ++ ",1") = "DA:5,1" :=
  ⟨(C6_sentinel_floors_count "FileWatcher.swift" ⟨5, true, 0⟩ (by decide) rfl).2 rfl,
   by decide⟩

/-- Emission of one entry list is unchanged by first removing its
non-executable entries, because emitEntry drops them. -/
theorem filterMap_emit_filter_exec (nm : String) (l : List CoverageEntry) :
    (l.filter (fun e => e.isExecutable)).filterMap (emitEntry nm)
      = l.filterMap (emitEntry nm) := by
  induction l with
  | nil => rfl
  | cons e t ih =>
    by_cases he : e.isExecutable = true <;>
      simp [List.filter_cons, List.filterMap_cons, he, emitEntry, ih]

/-- emitFile is unchanged by removing non-executable entries from the
per-file oracle. -/
theorem emitFile_filter_exec (fileCov : String → List CoverageEntry)
    (fexists : String → Bool) (root tn : String) (fe : FileEntry) :
    emitFile (fun p => (fileCov p).filter (fun e => e.isExecutable)) fexists root tn fe
      = emitFile fileCov fexists root tn fe := by
  unfold emitFile
  by_cases hf : fexists (posixStr fe.path) = true
  · cases hrel : relative_to (posixStr fe.path) root with
    | none => simp [hf, hrel]
    | some rel => simp [hf, hrel, filterMap_emit_filter_exec]
  · simp [hf]

/-- C7: a non-executable entry (isExecutable false, which is also the
dict.get default for an absent key) is never emitted, whatever its
execution count: emitEntry drops it, and the whole converter output is
unchanged when every non-executable entry is removed beforehand. -/
theorem C7_non_executable_never_emitted (fileName : String) (e : CoverageEntry)
    (report : CovReport) (fileCov : String → List CoverageEntry)
    (fexists : String → Bool) (root : String)
    (h : e.isExecutable = false) :
    emitEntry fileName e = none ∧
    lcovBody report (fun p => (fileCov p).filter (fun en => en.isExecutable)) fexists root
      = lcovBody report fileCov fexists root := by
  constructor
  · unfold emitEntry
    rw [h]
    rfl
  · unfold lcovBody
    simp only [emitFile_filter_exec]

/-- Witness for C7 on a non-executable entry with a positive count. -/
theorem C7_witness :
    emitEntry "A.swift" ⟨2, false, 7⟩ = none ∧
    lcovBody sampleReport (fun p => (sampleCov p).filter (fun en => en.isExecutable))
        allExist "/repo"
      = lcovBody sampleReport sampleCov allExist "/repo" :=
  C7_non_executable_never_emitted "A.swift" ⟨2, false, 7⟩ sampleReport sampleCov
    allExist "/repo" rfl

/-- C8 counterexample: a run on a report with no build targets succeeds
with exit code 0 yet writes a file holding no complete LCOV section (the
written text is a single newline, with zero end_of_record lines), so a
successful run does not always produce one or more sections. -/
theorem C8_counterexample :
    converter_main resolveId allExist emptyReport noCov "/repo"
        ["r.xcresult", "out/cov.lcov"] =
      (0, [Effect.mkdirParents "out", Effect.xccovReport "r.xcresult",
           Effect.writeFile "out/cov.lcov" "\n"]) ∧
    sectionCount "\n" = 0 := by decide

/-- C8 amended: on every successful run the converter first creates the
output parent directory tree, invokes the report-mode subprocess, makes
one per-file subprocess call per emitted file, and finally writes the
output file whose full content is the concatenation of all emitted lines
separated by newlines and terminated by a trailing newline — containing
zero or more complete LCOV sections, one per emitted file. -/
theorem C8_success_trace (resolve : String → String) (fexists : String → Bool)
    (report : CovReport) (fileCov : String → List CoverageEntry)
    (cwd xcArg outArg : String)
    (h : fexists (resolve xcArg) = true) :
    converter_main resolve fexists report fileCov cwd [xcArg, outArg] =
      (0, Effect.mkdirParents (parentOf (posixStr outArg)) ::
          Effect.xccovReport (resolve xcArg) ::
          ((lcovBody report fileCov fexists cwd).2.map
              (fun f => Effect.xccovFile f (resolve xcArg))
            ++ [Effect.writeFile (posixStr outArg)
                  (strJoin '\n' (lcovBody report fileCov fexists cwd).1 ++ "\n")])) := by
  unfold converter_main generate_lcov
  simp [h]

/-- Witness for C8 on a one-target, one-file report: the trace is the
mkdir, the report call, the per-file call and the write of one complete
section. -/
theorem C8_witness :
    converter_main resolveId allExist sampleReport sampleCov "/repo"
        ["r.xcresult", "out/cov.lcov"] =
      (0, [Effect.mkdirParents "out", Effect.xccovReport "r.xcresult",
           Effect.xccovFile "/repo/src/A.swift" "r.xcresult",
           Effect.writeFile "out/cov.lcov"
             "TN:Simmer.app\nSF:src/A.swift\nDA:1,2\nend_of_record\n"]) := by
  rw [C8_success_trace resolveId allExist sampleReport sampleCov "/repo"
    "r.xcresult" "out/cov.lcov" rfl]
  decide

/-- C9: a wrong operand count makes the converter exit 1 after writing
only the usage message to the error stream, and a resolved archive path
absent from disk makes it exit 1 after writing only an error message; in
both cases the trace holds no subprocess call and no file-system
write. -/
theorem C9_error_paths (resolve : String → String) (fexists : String → Bool)
    (report : CovReport) (fileCov : String → List CoverageEntry)
    (cwd : String) (args : List String) (xcArg outArg : String) :
    (args.length ≠ 2 →
      converter_main resolve fexists report fileCov cwd args
          = (1, [Effect.printErr usageMessage]) ∧
      [Effect.printErr usageMessage].all
          (fun e => !e.isSubprocess && !e.isFsWrite) = true) ∧
    (fexists (resolve xcArg) = false →
      converter_main resolve fexists report fileCov cwd [xcArg, outArg]
          = (1, [Effect.printErr ("error: xcresult not found at " ++ resolve xcArg)]) ∧
      [Effect.printErr ("error: xcresult not found at " ++ resolve xcArg)].all
          (fun e => !e.isSubprocess && !e.isFsWrite) = true) := by
  constructor
  · intro hlen
    refine ⟨?_, by decide⟩
    rcases args with _ | ⟨a, _ | ⟨b, _ | ⟨c, rest⟩⟩⟩
    · rfl
    · rfl
    · exact absurd rfl hlen
    · rfl
  · intro hex
    refine ⟨?_, rfl⟩
    unfold converter_main
    simp [hex]

/-- Witness for C9: one run with a single operand, one with a missing
archive. -/
theorem C9_witness :
    converter_main resolveId allExist emptyReport noCov "/repo" ["only-one"]
        = (1, [Effect.printErr usageMessage]) ∧
    converter_main resolveId noneExist emptyReport noCov "/repo"
        ["r.xcresult", "out.lcov"]
        = (1, [Effect.printErr "error: xcresult not found at r.xcresult"]) := by
  constructor
  · exact ((C9_error_paths resolveId allExist emptyReport noCov "/repo"
      ["only-one"] "x" "y").1 (by decide)).1
  · exact ((C9_error_paths resolveId noneExist emptyReport noCov "/repo"
      ["r.xcresult", "out.lcov"] "r.xcresult" "out.lcov").2 rfl).1

end Simmer
